import Mathlib

/-!
Verification of the wokkel publish-subscribe protocol engine
(`src/wokkel/pubsub.py`) against its natural-language specification.

The development shallowly embeds the request codec (`PubSubRequest`),
the service handler helpers and the notification pipeline as executable
Lean definitions, translated line-by-line from the Python source, and
proves (or refutes) the frozen claims about them.

Python values are modelled as follows: strings are `String`, `None`-able
fields are `Option`, machine integers produced by `int()` are `Int`,
XML attribute dictionaries are ordered association lists, and functions
that can raise return `Except`.  JIDs are modelled as their canonical
full-form string (the external twisted JID collaborator, spec section 6:
parse from string, render `.full()`).
-/

/-! ## Wire vocabulary (pubsub.py lines 24-39) -/

def NS_PUBSUB : String := "http://jabber.org/protocol/pubsub"
def NS_PUBSUB_EVENT : String := NS_PUBSUB ++ "#event"
def NS_PUBSUB_ERRORS : String := NS_PUBSUB ++ "#errors"
def NS_PUBSUB_OWNER : String := NS_PUBSUB ++ "#owner"
def NS_PUBSUB_NODE_CONFIG : String := NS_PUBSUB ++ "#node_config"
def NS_PUBSUB_META_DATA : String := NS_PUBSUB ++ "#meta-data"
def NS_PUBSUB_SUBSCRIBE_OPTIONS : String := NS_PUBSUB ++ "#subscribe_options"

/-- Modelled from the spec: `NS_DISCO_ITEMS` is defined in `wokkel.disco`,
which is not under `src/`; the spec (section 4.2) names it as the
disco-items feature namespace advertised by `getDiscoInfo`. -/
def NS_DISCO_ITEMS : String := "http://jabber.org/protocol/disco#items"

/-! ## Python `int()` on strings

`_parse_maxItems` calls `int(value)` and catches `ValueError`.  We model
the accepted language: an optional sign followed by a non-empty run of
decimal digits.  (Python additionally tolerates surrounding whitespace,
which no modelled input uses.) -/

def decDigitsVal (l : List Char) : Nat :=
  l.foldl (fun a c => a * 10 + (c.toNat - 48)) 0

def decOfChars (l : List Char) : Option Nat :=
  if !l.isEmpty && l.all Char.isDigit then some (decDigitsVal l) else none

def pyIntChars (l : List Char) : Option Int :=
  match l with
  | [] => none
  | c :: rest =>
      if c = '-' then (decOfChars rest).map (fun n => -(n : Int))
      else if c = '+' then (decOfChars rest).map (fun n => (n : Int))
      else (decOfChars (c :: rest)).map (fun n => (n : Int))

def pyInt (s : String) : Option Int := pyIntChars s.data

/-- Decimal rendering of a natural number, most significant digit first. -/
def natDecChars (n : Nat) : List Char :=
  (Nat.digits 10 n).reverse.map (fun d => Char.ofNat (48 + d))

/-- Python `unicode(n)` for an `int` value `n`. -/
def intToDec (n : Int) : String :=
  if n = 0 then "0"
  else if n < 0 then String.mk ('-' :: natDecChars n.natAbs)
  else String.mk (natDecChars n.natAbs)

/-! ## XML model

Only the structure the codec inspects is represented: element namespace
(`uri`), local name, the attribute dictionary, and child elements.  A
child of a verb element either parses as a data form
(`data_form.Form.fromElement` succeeds) or it does not; `VChild`
distinguishes the two outcomes, since the source only ever distinguishes
children that way (`_findForm`) or by `(uri, name)` (item collection). -/

structure SimpleElem where
  uri : String
  name : String
  attrs : List (String × String)
  payload : Option String := none
deriving Repr, DecidableEq

structure DataForm where
  formType : String
  formNamespace : Option String
  values : List (String × String)
deriving Repr, DecidableEq

inductive VChild where
  | elem : SimpleElem → VChild
  | form : DataForm → VChild
deriving Repr, DecidableEq

structure VerbElem where
  uri : String
  name : String
  attrs : List (String × String)
  children : List VChild
deriving Repr, DecidableEq

/-- Attribute (or form value) lookup in an ordered association list. -/
def getAttr (attrs : List (String × String)) (n : String) : Option String :=
  match attrs with
  | [] => none
  | (k, v) :: rest => if k = n then some v else getAttr rest n

def setAttr (e : VerbElem) (n v : String) : VerbElem :=
  { e with attrs := e.attrs ++ [(n, v)] }

def addChildren (e : VerbElem) (cs : List VChild) : VerbElem :=
  { e with children := e.children ++ cs }

/-- An inbound pubsub IQ, reduced to what `parseElement` reads: the
stanza type, the from/to attributes, and the children of its `pubsub`
child element. -/
structure IQ where
  stanzaType : String
  fromAttr : Option String
  toAttr : Option String
  pubsubChildren : List VerbElem
deriving Repr, DecidableEq

/-! ## Domain types (pubsub.py lines 94-111) -/

structure Subscription where
  nodeIdentifier : Option String
  subscriber : String
  state : String
  options : List (String × String) := []
deriving Repr, DecidableEq

/-! ## The PubSubRequest record (pubsub.py lines 145-242) -/

inductive Verb where
  | publish | subscribe | unsubscribe | optionsGet | optionsSet
  | subscriptions | affiliations | create | default | configureGet
  | configureSet | items | retract | purge | delete
  | affiliationsGet | affiliationsSet | subscriptionsGet | subscriptionsSet
deriving Repr, DecidableEq

inductive Param where
  | node | nodeOrEmpty | nodeOrNone | items | jid | options
  | default | configure | itemIdentifiers | maxItems
deriving Repr, DecidableEq

/-- The request record.  Every class attribute of the Python class
defaults to `None`; the `affiliations` and `subscriptions` fields are
never read or written by any parameter handler in this version of the
source and stay `none` throughout. -/
structure PubSubRequest where
  verb : Option Verb := none
  sender : Option String := none
  recipient : Option String := none
  nodeIdentifier : Option String := none
  nodeType : Option String := none
  items : Option (List SimpleElem) := none
  itemIdentifiers : Option (List String) := none
  maxItems : Option Int := none
  subscriber : Option String := none
  options : Option (List (String × String)) := none
  affiliations : Option (List (String × String)) := none
  subscriptions : Option (List Subscription) := none
deriving Repr, DecidableEq

/-- `_requestVerbMap` (lines 196-216): request iq type, child namespace
and child name to request verb. -/
def requestVerbMap : List ((String × String × String) × Verb) :=
  [ (("set", NS_PUBSUB, "publish"), .publish),
    (("set", NS_PUBSUB, "subscribe"), .subscribe),
    (("set", NS_PUBSUB, "unsubscribe"), .unsubscribe),
    (("get", NS_PUBSUB, "options"), .optionsGet),
    (("set", NS_PUBSUB, "options"), .optionsSet),
    (("get", NS_PUBSUB, "subscriptions"), .subscriptions),
    (("get", NS_PUBSUB, "affiliations"), .affiliations),
    (("set", NS_PUBSUB, "create"), .create),
    (("get", NS_PUBSUB_OWNER, "default"), .default),
    (("get", NS_PUBSUB_OWNER, "configure"), .configureGet),
    (("set", NS_PUBSUB_OWNER, "configure"), .configureSet),
    (("get", NS_PUBSUB, "items"), .items),
    (("set", NS_PUBSUB, "retract"), .retract),
    (("set", NS_PUBSUB_OWNER, "purge"), .purge),
    (("set", NS_PUBSUB_OWNER, "delete"), .delete),
    (("get", NS_PUBSUB_OWNER, "affiliations"), .affiliationsGet),
    (("set", NS_PUBSUB_OWNER, "affiliations"), .affiliationsSet),
    (("get", NS_PUBSUB_OWNER, "subscriptions"), .subscriptionsGet),
    (("set", NS_PUBSUB_OWNER, "subscriptions"), .subscriptionsSet) ]

def lookupVerb (k : String × String × String) : Option Verb :=
  (requestVerbMap.find? (fun e => e.1 = k)).map (·.2)

/-- `_verbRequestMap` (line 219): the inverse of `requestVerbMap`,
written out as the exhaustive match the dict inversion produces. -/
def verbRequestMap : Verb → String × String × String
  | .publish => ("set", NS_PUBSUB, "publish")
  | .subscribe => ("set", NS_PUBSUB, "subscribe")
  | .unsubscribe => ("set", NS_PUBSUB, "unsubscribe")
  | .optionsGet => ("get", NS_PUBSUB, "options")
  | .optionsSet => ("set", NS_PUBSUB, "options")
  | .subscriptions => ("get", NS_PUBSUB, "subscriptions")
  | .affiliations => ("get", NS_PUBSUB, "affiliations")
  | .create => ("set", NS_PUBSUB, "create")
  | .default => ("get", NS_PUBSUB_OWNER, "default")
  | .configureGet => ("get", NS_PUBSUB_OWNER, "configure")
  | .configureSet => ("set", NS_PUBSUB_OWNER, "configure")
  | .items => ("get", NS_PUBSUB, "items")
  | .retract => ("set", NS_PUBSUB, "retract")
  | .purge => ("set", NS_PUBSUB_OWNER, "purge")
  | .delete => ("set", NS_PUBSUB_OWNER, "delete")
  | .affiliationsGet => ("get", NS_PUBSUB_OWNER, "affiliations")
  | .affiliationsSet => ("set", NS_PUBSUB_OWNER, "affiliations")
  | .subscriptionsGet => ("get", NS_PUBSUB_OWNER, "subscriptions")
  | .subscriptionsSet => ("set", NS_PUBSUB_OWNER, "subscriptions")

/-- `_parameters` (lines 222-242): request verb to parameter handler
names. -/
def parameters : Verb → List Param
  | .publish => [.node, .items]
  | .subscribe => [.nodeOrEmpty, .jid]
  | .unsubscribe => [.nodeOrEmpty, .jid]
  | .optionsGet => [.nodeOrEmpty, .jid]
  | .optionsSet => [.nodeOrEmpty, .jid, .options]
  | .subscriptions => []
  | .affiliations => []
  | .create => [.nodeOrNone]
  | .default => [.default]
  | .configureGet => [.nodeOrEmpty]
  | .configureSet => [.nodeOrEmpty, .configure]
  | .items => [.node, .maxItems, .itemIdentifiers]
  | .retract => [.node, .itemIdentifiers]
  | .purge => [.node]
  | .delete => [.node]
  | .affiliationsGet => []
  | .affiliationsSet => []
  | .subscriptionsGet => []
  | .subscriptionsSet => []

/-! ## Error carriers (pubsub.py lines 56-90) -/

/-- Errors raised while parsing a request.  `badRequest c t` is
`BadRequest(pubsubCondition=c, text=t)`; `notImplemented` is the
`NotImplementedError` raised when no verb sub-element is recognised. -/
inductive ParseErr where
  | badRequest (pubsubCondition : Option String) (text : Option String)
  | notImplemented
deriving Repr, DecidableEq

deriving instance DecidableEq for Except

/-- `_findForm` (lines 248-269).  The source iterates the children,
overwrites `form` with every child that `data_form.Form.fromElement`
accepts, and on a namespace mismatch merely executes `continue` at the
end of the loop body, which does not reset `form`; the returned value is
therefore the last child that parses as a data form, regardless of the
namespace test at line 266 and of the `formNamespace` argument. -/
def findForm (children : List VChild) (_formNamespace : String) : Option DataForm :=
  children.foldl
    (fun acc c =>
      match c with
      | .elem _ => acc
      | .form f => some f)
    none

/-- Children of the verb element whose namespace is `NS_PUBSUB` and
whose local name is `item` (`_parse_items`, lines 322-329). -/
def itemsOfChildren : List VChild → List SimpleElem
  | [] => []
  | .form _ :: rest => itemsOfChildren rest
  | .elem e :: rest =>
      if e.uri == NS_PUBSUB && e.name == "item" then e :: itemsOfChildren rest
      else itemsOfChildren rest

/-- The `id` attributes of the item children
(`_parse_itemIdentifiers`, lines 387-397); a missing `id` raises a bare
`BadRequest()`. -/
def collectIds (children : List VChild) : Except ParseErr (List String) :=
  match children with
  | [] => .ok []
  | .form _ :: rest => collectIds rest
  | .elem e :: rest =>
      if e.uri == NS_PUBSUB && e.name == "item" then
        match getAttr e.attrs "id" with
        | none => .error (.badRequest none none)
        | some i =>
            match collectIds rest with
            | .ok is => .ok (i :: is)
            | .error err => .error err
      else collectIds rest

/-- One `_parse_<name>` method (lines 272-442), dispatched on the
parameter name exactly as `getattr(self, '_parse_%s' % parameter)`. -/
def parseParam (p : Param) (e : VerbElem) (r : PubSubRequest) :
    Except ParseErr PubSubRequest :=
  match p with
  | .node =>
      match getAttr e.attrs "node" with
      | none => .error (.badRequest (some "nodeid-required") none)
      | some s => .ok { r with nodeIdentifier := some s }
  | .nodeOrEmpty =>
      .ok { r with nodeIdentifier := some ((getAttr e.attrs "node").getD "") }
  | .nodeOrNone =>
      .ok { r with nodeIdentifier := getAttr e.attrs "node" }
  | .items =>
      .ok { r with items := some (itemsOfChildren e.children) }
  | .jid =>
      match getAttr e.attrs "jid" with
      | none => .error (.badRequest (some "jid-required") none)
      | some j => .ok { r with subscriber := some j }
  | .default =>
      match findForm e.children NS_PUBSUB_NODE_CONFIG with
      | some f =>
          if f.formType = "submit" then
            let nt := (getAttr f.values "pubsub#node_type").getD "leaf"
            .ok { r with nodeType := some nt }
          else .ok { r with nodeType := some "leaf" }
      | none => .ok { r with nodeType := some "leaf" }
  | .configure =>
      match findForm e.children NS_PUBSUB_NODE_CONFIG with
      | some f =>
          if f.formType = "submit" then .ok { r with options := some f.values }
          else if f.formType = "cancel" then .ok { r with options := some [] }
          else .error (.badRequest none
                  (some ("Unexpected form type '" ++ f.formType ++ "'")))
      | none => .error (.badRequest none (some "Missing configuration form"))
  | .itemIdentifiers =>
      match collectIds e.children with
      | .ok is => .ok { r with itemIdentifiers := some is }
      | .error err => .error err
  | .maxItems =>
      match getAttr e.attrs "max_items" with
      | none => .ok r
      | some v =>
          if v = "" then .ok r
          else
            match pyInt v with
            | some n => .ok { r with maxItems := some n }
            | none => .error (.badRequest none
                (some "Field max_items requires a positive integer value"))
  | .options =>
      match findForm e.children NS_PUBSUB_SUBSCRIBE_OPTIONS with
      | some f =>
          if f.formType = "submit" then .ok { r with options := some f.values }
          else if f.formType = "cancel" then .ok { r with options := some [] }
          else .error (.badRequest none
                  (some ("Unexpected form type '" ++ f.formType ++ "'")))
      | none => .error (.badRequest none (some "Missing options form"))

/-- Run the verb's parameter parsers in listed order (lines 463-464). -/
def parseParams (ps : List Param) (e : VerbElem) (r : PubSubRequest) :
    Except ParseErr PubSubRequest :=
  match ps with
  | [] => .ok r
  | p :: rest =>
      match parseParam p e r with
      | .ok r2 => parseParams rest e r2
      | .error err => .error err

/-- The verb scan of `parseElement` (lines 450-458): the first child of
`<pubsub>` whose `(stanzaType, uri, name)` triple is in the verb map
binds the verb, and that child is the verb element. -/
def findVerb (stanzaType : String) : List VerbElem → Option (Verb × VerbElem)
  | [] => none
  | c :: rest =>
      match lookupVerb (stanzaType, c.uri, c.name) with
      | some v => some (v, c)
      | none => findVerb stanzaType rest

/-- Modelled from the spec: `generic.Stanza.parseElement`
(`wokkel.generic`, not under `src/`) reads the stanza type and the
`from`/`to` attributes of the IQ into `stanzaType`, `sender` and
`recipient` (spec sections 4.1 and 6). -/
def stanzaBase (iq : IQ) : PubSubRequest :=
  { sender := iq.fromAttr, recipient := iq.toAttr }

/-- `PubSubRequest.parseElement` (lines 444-464). -/
def parseElement (iq : IQ) : Except ParseErr PubSubRequest :=
  match findVerb iq.stanzaType iq.pubsubChildren with
  | none => .error .notImplemented
  | some (v, c) =>
      parseParams (parameters v) c { stanzaBase iq with verb := some v }

/-- `PubSubService._onPubSubRequest` (lines 871-874): decode the IQ and
dispatch to the `_on_<verb>` handler.  The result names the backend
handler (verb) invoked with the parsed request; a parse failure
propagates and no handler runs. -/
def onPubSubRequest (iq : IQ) : Except ParseErr (Verb × PubSubRequest) :=
  match parseElement iq with
  | .error err => .error err
  | .ok r =>
      match r.verb with
      | some v => .ok (v, r)
      | none => .error .notImplemented

/-- Modelled from the spec: the IQ handling layer (`IQHandlerMixin` in
`wokkel.subprotocols`, not under `src/`) turns a `NotImplementedError`
raised during request handling into a stanza error with condition
`feature-not-implemented`, and lets `BadRequest` carry its own
`bad-request` condition (spec section 7, items 1 and 5). -/
def dispatcherErrorCondition : ParseErr → String
  | .badRequest _ _ => "bad-request"
  | .notImplemented => "feature-not-implemented"

/-! ## Rendering (`PubSubRequest.send`, lines 467-500) -/

/-- Errors raised while rendering a request.  `exception msg` is a plain
Python `Exception` (not a stanza-error carrier); `attributeError m` is
the `AttributeError` raised by `getattr` when the renderer method `m`
does not exist on the class. -/
inductive SendErr where
  | notImplemented
  | exception (msg : String)
  | attributeError (missing : String)
deriving Repr, DecidableEq

/-- One `_render_<name>` method, dispatched exactly as
`getattr(self, '_render_%s' % parameter)`.  The source defines no
`_render_default`, `_render_configure` or `_render_options` method, so
those three parameter names raise `AttributeError`. -/
def renderParam (p : Param) (r : PubSubRequest) (e : VerbElem) :
    Except SendErr VerbElem :=
  match p with
  | .node =>
      match r.nodeIdentifier with
      | some s =>
          if s = "" then .error (.exception "Node identifier is required")
          else .ok (setAttr e "node" s)
      | none => .error (.exception "Node identifier is required")
  | .nodeOrEmpty =>
      match r.nodeIdentifier with
      | some s => if s = "" then .ok e else .ok (setAttr e "node" s)
      | none => .ok e
  | .nodeOrNone =>
      match r.nodeIdentifier with
      | some s => if s = "" then .ok e else .ok (setAttr e "node" s)
      | none => .ok e
  | .items =>
      match r.items with
      | some l => if l.isEmpty then .ok e else .ok (addChildren e (l.map .elem))
      | none => .ok e
  | .jid =>
      match r.subscriber with
      | some j => .ok (setAttr e "jid" j)
      | none => .error (.attributeError "full")
  | .itemIdentifiers =>
      match r.itemIdentifiers with
      | some l =>
          if l.isEmpty then .ok e
          else .ok (addChildren e
            (l.map (fun i => .elem { uri := e.uri, name := "item", attrs := [("id", i)] })))
      | none => .ok e
  | .maxItems =>
      match r.maxItems with
      | some n => if n = 0 then .ok e else .ok (setAttr e "max_items" (intToDec n))
      | none => .ok e
  | .default => .error (.attributeError "_render_default")
  | .configure => .error (.attributeError "_render_configure")
  | .options => .error (.attributeError "_render_options")

/-- Run the verb's parameter renderers in listed order (lines 497-498). -/
def renderParams (ps : List Param) (r : PubSubRequest) (e : VerbElem) :
    Except SendErr VerbElem :=
  match ps with
  | [] => .ok e
  | p :: rest =>
      match renderParam p r e with
      | .ok e2 => renderParams rest r e2
      | .error err => .error err

/-- The IQ handed to `iq.send()` at line 500: stanza type and from/to
attributes, a `<pubsub>` child in the verb's namespace, and the rendered
verb element as its single child. -/
structure SentIQ where
  stanzaType : String
  fromAttr : Option String
  toAttr : Option String
  pubsubUri : String
  verbChild : VerbElem
deriving Repr, DecidableEq

/-- `PubSubRequest.send` (lines 467-500) up to the dispatch on the
stream: an error means the corresponding Python exception was raised
before `iq.send()`, so nothing is put on the wire. -/
def sendReq (r : PubSubRequest) : Except SendErr SentIQ :=
  match r.verb with
  | none => .error .notImplemented
  | some v =>
      match verbRequestMap v with
      | (t, uri, name) =>
          match renderParams (parameters v)
                  r { uri := uri, name := name, attrs := [], children := [] } with
          | .ok e =>
              .ok { stanzaType := t, fromAttr := r.sender, toAttr := r.recipient,
                    pubsubUri := uri, verbChild := e }
          | .error err => .error err

/-- A sent IQ, as received by a parser on the other end of the stream. -/
def sentToIQ (s : SentIQ) : IQ :=
  { stanzaType := s.stanzaType, fromAttr := s.fromAttr, toAttr := s.toAttr,
    pubsubChildren := [s.verbChild] }

/-- Round trip of claim C1: render a request with `send` and parse the
produced stanza back; `none` means rendering raised, so no stanza was
ever produced. -/
def roundTrip (r : PubSubRequest) : Option (Except ParseErr PubSubRequest) :=
  match sendReq r with
  | .error _ => none
  | .ok s => some (parseElement (sentToIQ s))

/-! ## Service handler pieces -/

/-- The `<pubsub><create node=.../></pubsub>` response payload. -/
structure CreatePayload where
  node : String
deriving Repr, DecidableEq

/-- The `toResponse` closure of `_on_create` (lines 949-956), applied to
the request's `nodeIdentifier` and the backend-assigned identifier.
`not request.nodeIdentifier` is Python truthiness: it holds for `None`
and for the empty string. -/
def onCreateToResponse (requestNode : Option String) (result : String) :
    Option CreatePayload :=
  if requestNode.getD "" = "" ∨ requestNode ≠ some result then some { node := result }
  else none

/-- Rendering of claim C7's words: the response carries the
`<create node=assigned/>` payload exactly when the requested identifier
is absent or differs from the assigned one, and no payload otherwise.
An identifier is absent when it is `none` or the empty string: the
codebase denotes "no node requested" by either (`nodeOrNone` parses a
missing attribute to `None`, `nodeOrEmpty` to the empty string). -/
def createResponseSpec (requestNode : Option String) (result : String) :
    Option CreatePayload :=
  if requestNode = none ∨ requestNode = some "" ∨ requestNode ≠ some result then
    some { node := result }
  else none

/-- An outgoing event notification message.  The SHIM headers element is
modelled from the spec (section 6): `shim.Headers` (`wokkel.shim`, not
under `src/`) wraps an ordered sequence of name/value pairs; `headers =
none` means no `<headers/>` element was added to the message.  A header
value is `Option String` because a subscription to the root node has
`nodeIdentifier = None`. -/
structure Message where
  fromJid : String
  toJid : String
  eventType : String
  node : String
  itemsChildren : List SimpleElem := []
  headers : Option (List (String × Option String)) := none
deriving Repr, DecidableEq

/-- The header-collection loop of `_createNotification` (lines
1116-1119): one `Collection` header per subscription whose node differs
from the event's node. -/
def collectionHeaders (nodeIdentifier : String) (subs : List Subscription) :
    List (String × Option String) :=
  subs.filterMap
    (fun s =>
      if s.nodeIdentifier = some nodeIdentifier then none
      else some ("Collection", s.nodeIdentifier))

/-- `PubSubService._createNotification` (lines 1112-1132). -/
def createNotification (eventType service nodeIdentifier subscriber : String)
    (subs : List Subscription) : Message :=
  let hs := collectionHeaders nodeIdentifier subs
  { fromJid := service, toJid := subscriber, eventType := eventType,
    node := nodeIdentifier,
    headers := if hs.isEmpty then none else some hs }

/-- `PubSubService.notifyPublish` (lines 1134-1140): one message per
`(subscriber, subscriptions, items)` triple, in order; the items become
the children of the `<items>` event element. -/
def notifyPublish (service nodeIdentifier : String)
    (notifications : List (String × List Subscription × List SimpleElem)) :
    List Message :=
  notifications.map
    (fun n =>
      { createNotification "items" service nodeIdentifier n.1 n.2.1 with
          itemsChildren := n.2.2 })

/-- A service discovery info entry contributed by `getDiscoInfo`. -/
inductive InfoEntry where
  | identity (category idType name : String)
  | feature (var : String)
deriving Repr, DecidableEq

/-- The `discoIdentity` mapping set up by `PubSubService.__init__`
(lines 811-813), as the ordered key/value association the dict holds. -/
def defaultDiscoIdentity : List (String × String) :=
  [("category", "pubsub"), ("type", "generic"),
   ("name", "Generic Publish-Subscribe Service")]

/-- Line 826, `category, idType, name = self.discoIdentity`: unpacking a
Python dict iterates its KEYS, so the three variables are bound to the
three key strings, never to the stored values.  (Python 2 dict order is
unspecified; insertion order is used here, and every order yields key
strings.)  Unpacking a dict of any other size raises and is not reached
for the three-key mapping. -/
def unpackDiscoIdentity (m : List (String × String)) : String × String × String :=
  match m.map Prod.fst with
  | [a, b, c] => (a, b, c)
  | _ => ("", "", "")

/-- The service-level branch of `PubSubService.getDiscoInfo`
(lines 823-831): the info entries appended when the requested node
identifier is empty, before the per-node backend lookup. -/
def getDiscoInfoEmptyNode (discoIdentity : List (String × String))
    (pubSubFeatures : List String) : List InfoEntry :=
  match unpackDiscoIdentity discoIdentity with
  | (category, idType, name) =>
      InfoEntry.identity category idType name
        :: InfoEntry.feature NS_DISCO_ITEMS
        :: pubSubFeatures.map (fun f => InfoEntry.feature (NS_PUBSUB ++ "#" ++ f))

/-- Exceptions raised by the `subscribe` response post-processor. -/
inductive ClientError where
  | subscriptionPending
  | subscriptionUnconfigured
deriving Repr, DecidableEq

/-- The `cb` closure of `PubSubClient.subscribe` (lines 688-699),
applied to the `subscription` attribute of the response's
`<subscription>` element.  `ok none` is the Python `return None`. -/
def subscribeCb (subscription : String) : Except ClientError (Option Unit) :=
  if subscription = "pending" then .error .subscriptionPending
  else if subscription = "unconfigured" then .error .subscriptionUnconfigured
  else .ok none

/-! ## Valid request records

Claim C1 quantifies over "valid request records with verb `v`": records
whose fields are populated according to `v`'s parameter list (spec
section 3) — a field is unset (`none`) unless the list includes it —
and whose populated fields carry representable wire values: a required
node identifier is non-empty, an optional (`nodeOrNone`) identifier is
not the degenerate present-but-empty string, published items are pubsub
`<item/>` elements (spec section 3, Item), and `maxItems` is a positive
integer (spec section 3). -/
def validRequest (v : Verb) (r : PubSubRequest) : Prop :=
  r.verb = some v ∧ r.affiliations = none ∧ r.subscriptions = none ∧
  match v with
  | .publish =>
      (r.nodeIdentifier ≠ none ∧ r.nodeIdentifier ≠ some "")
      ∧ r.items ≠ none
      ∧ (r.items.getD []).all (fun e => e.uri == NS_PUBSUB && e.name == "item") = true
      ∧ r.nodeType = none ∧ r.itemIdentifiers = none ∧ r.maxItems = none
      ∧ r.subscriber = none ∧ r.options = none
  | .subscribe | .unsubscribe | .optionsGet =>
      r.nodeIdentifier ≠ none ∧ r.subscriber ≠ none
      ∧ r.nodeType = none ∧ r.items = none ∧ r.itemIdentifiers = none
      ∧ r.maxItems = none ∧ r.options = none
  | .optionsSet =>
      r.nodeIdentifier ≠ none ∧ r.subscriber ≠ none ∧ r.options ≠ none
      ∧ r.nodeType = none ∧ r.items = none ∧ r.itemIdentifiers = none
      ∧ r.maxItems = none
  | .create =>
      r.nodeIdentifier ≠ some ""
      ∧ r.nodeType = none ∧ r.items = none ∧ r.itemIdentifiers = none
      ∧ r.maxItems = none ∧ r.subscriber = none ∧ r.options = none
  | .default =>
      r.nodeType ≠ none
      ∧ r.nodeIdentifier = none ∧ r.items = none ∧ r.itemIdentifiers = none
      ∧ r.maxItems = none ∧ r.subscriber = none ∧ r.options = none
  | .configureGet =>
      r.nodeIdentifier ≠ none
      ∧ r.nodeType = none ∧ r.items = none ∧ r.itemIdentifiers = none
      ∧ r.maxItems = none ∧ r.subscriber = none ∧ r.options = none
  | .configureSet =>
      r.nodeIdentifier ≠ none ∧ r.options ≠ none
      ∧ r.nodeType = none ∧ r.items = none ∧ r.itemIdentifiers = none
      ∧ r.maxItems = none ∧ r.subscriber = none
  | .items =>
      (r.nodeIdentifier ≠ none ∧ r.nodeIdentifier ≠ some "")
      ∧ 0 < r.maxItems.getD 1 ∧ r.itemIdentifiers ≠ none
      ∧ r.nodeType = none ∧ r.items = none ∧ r.subscriber = none
      ∧ r.options = none
  | .retract =>
      (r.nodeIdentifier ≠ none ∧ r.nodeIdentifier ≠ some "")
      ∧ r.itemIdentifiers ≠ none
      ∧ r.nodeType = none ∧ r.items = none ∧ r.maxItems = none
      ∧ r.subscriber = none ∧ r.options = none
  | .purge | .delete =>
      (r.nodeIdentifier ≠ none ∧ r.nodeIdentifier ≠ some "")
      ∧ r.nodeType = none ∧ r.items = none ∧ r.itemIdentifiers = none
      ∧ r.maxItems = none ∧ r.subscriber = none ∧ r.options = none
  | .subscriptions | .affiliations | .affiliationsGet | .affiliationsSet
  | .subscriptionsGet | .subscriptionsSet =>
      r.nodeIdentifier = none
      ∧ r.nodeType = none ∧ r.items = none ∧ r.itemIdentifiers = none
      ∧ r.maxItems = none ∧ r.subscriber = none ∧ r.options = none

instance (v : Verb) (r : PubSubRequest) : Decidable (validRequest v r) := by
  unfold validRequest
  cases v <;> infer_instance

/-! ## Concrete inputs used by witnesses and counterexamples -/

/-- A valid `default` request: the node-configuration verbs have no
renderer method in the source. -/
def c1CexReq : PubSubRequest :=
  { verb := some Verb.default, nodeType := some "leaf" }

/-- A valid `publish` request with one item. -/
def c1WitReq : PubSubRequest :=
  { verb := some Verb.publish,
    sender := some "user@example.org/home",
    recipient := some "pubsub.example.org",
    nodeIdentifier := some "news",
    items := some [{ uri := NS_PUBSUB, name := "item", attrs := [("id", "1")] }] }

/-- An `optionsSet` verb element whose only child is a submitted
node-config form (the wrong namespace for subscription options). -/
def c2Elem : VerbElem :=
  { uri := NS_PUBSUB, name := "options",
    attrs := [("node", "news"), ("jid", "user@example.org")],
    children := [VChild.form
      { formType := "submit", formNamespace := some NS_PUBSUB_NODE_CONFIG,
        values := [("pubsub#persist_items", "1")] }] }

/-- A publish verb element with no `node` attribute. -/
def c3Child : VerbElem :=
  { uri := NS_PUBSUB, name := "publish", attrs := [], children := [] }

/-- A publish IQ whose verb element lacks the `node` attribute. -/
def c3Iq : IQ :=
  { stanzaType := "set", fromAttr := some "user@example.org",
    toAttr := some "pubsub.example.org",
    pubsubChildren := [c3Child] }

/-- An IQ whose `pubsub` child holds only an unrecognised element. -/
def c4Iq : IQ :=
  { stanzaType := "set", fromAttr := some "user@example.org",
    toAttr := some "pubsub.example.org",
    pubsubChildren := [{ uri := NS_PUBSUB, name := "frobnicate", attrs := [],
                         children := [] }] }

/-- An items verb element with `max_items="-5"`. -/
def c5CexElem : VerbElem :=
  { uri := NS_PUBSUB, name := "items",
    attrs := [("node", "news"), ("max_items", "-5")], children := [] }

/-- An items verb element with `max_items="abc"`. -/
def c5AbcElem : VerbElem :=
  { uri := NS_PUBSUB, name := "items",
    attrs := [("node", "news"), ("max_items", "abc")], children := [] }

/-- An items verb element with `max_items="10"`. -/
def c5TenElem : VerbElem :=
  { uri := NS_PUBSUB, name := "items",
    attrs := [("node", "news"), ("max_items", "10")], children := [] }

/-- One notification triple: a subscriber whose subscription is to the
collection node `all-news`, receiving an event for node `news`. -/
def c6Triple : String × List Subscription × List SimpleElem :=
  ("alice@example.org",
   [{ nodeIdentifier := some "all-news", subscriber := "alice@example.org",
      state := "subscribed" }],
   [{ uri := NS_PUBSUB, name := "item", attrs := [("id", "1")] }])

def c6Notifs : List (String × List Subscription × List SimpleElem) := [c6Triple]

/-- The message `notifyPublish` builds for `c6Triple` on node `news`. -/
def c6Msg : Message :=
  { fromJid := "pubsub.example.org", toJid := "alice@example.org",
    eventType := "items", node := "news",
    itemsChildren := [{ uri := NS_PUBSUB, name := "item", attrs := [("id", "1")] }],
    headers := some [("Collection", some "all-news")] }

/-- A publish request lacking its mandatory node identifier. -/
def c10Req : PubSubRequest :=
  { verb := some Verb.publish, recipient := some "pubsub.example.org",
    items := some [] }

/-! ## Decimal digit lemmas

`_render_maxItems` stringifies the integer and `_parse_maxItems` reads
it back with `int()`; these lemmas connect `intToDec` and `pyInt`. -/

theorem char_digit_toNat {d : Nat} (h : d < 10) :
    (Char.ofNat (48 + d)).toNat = 48 + d := by
  interval_cases d <;> decide

theorem char_digit_isDigit {d : Nat} (h : d < 10) :
    (Char.ofNat (48 + d)).isDigit = true := by
  interval_cases d <;> decide

theorem char_digit_ne_minus {d : Nat} (h : d < 10) :
    Char.ofNat (48 + d) ≠ '-' := by
  interval_cases d <;> decide

theorem char_digit_ne_plus {d : Nat} (h : d < 10) :
    Char.ofNat (48 + d) ≠ '+' := by
  interval_cases d <;> decide

theorem foldl_map_digitChars (l : List Nat) (h : ∀ d ∈ l, d < 10) (a : Nat) :
    (l.map (fun d => Char.ofNat (48 + d))).foldl
        (fun a c => a * 10 + (c.toNat - 48)) a
      = l.foldl (fun a d => a * 10 + d) a := by
  induction l generalizing a with
  | nil => rfl
  | cons d t ih =>
    simp only [List.map_cons, List.foldl_cons]
    rw [char_digit_toNat (h d (List.mem_cons_self d t))]
    have hd : 48 + d - 48 = d := by omega
    rw [hd]
    exact ih (fun x hx => h x (List.mem_cons_of_mem d hx)) _

theorem foldl_reverse_ofDigits (l : List Nat) :
    l.reverse.foldl (fun a d => a * 10 + d) 0 = Nat.ofDigits 10 l := by
  induction l with
  | nil => rfl
  | cons d t ih =>
    rw [List.reverse_cons, List.foldl_append, ih]
    simp only [List.foldl_cons, List.foldl_nil, Nat.ofDigits_cons]
    omega

theorem natDecChars_ne_nil {n : Nat} (h : n ≠ 0) : natDecChars n ≠ [] := by
  unfold natDecChars
  simp only [ne_eq, List.map_eq_nil_iff, List.reverse_eq_nil_iff]
  exact Nat.digits_ne_nil_iff_ne_zero.mpr h

theorem natDecChars_all_digits (n : Nat) :
    (natDecChars n).all Char.isDigit = true := by
  unfold natDecChars
  rw [List.all_eq_true]
  intro c hc
  rw [List.mem_map] at hc
  obtain ⟨d, hd, rfl⟩ := hc
  exact char_digit_isDigit
    (Nat.digits_lt_base (by norm_num) (List.mem_reverse.mp hd))

theorem decDigitsVal_natDecChars (n : Nat) : decDigitsVal (natDecChars n) = n := by
  unfold decDigitsVal natDecChars
  rw [foldl_map_digitChars _
    (fun d hd => Nat.digits_lt_base (by norm_num) (List.mem_reverse.mp hd))]
  rw [foldl_reverse_ofDigits, Nat.ofDigits_digits]

theorem decOfChars_natDecChars {n : Nat} (h : n ≠ 0) :
    decOfChars (natDecChars n) = some n := by
  have h1 : (natDecChars n).isEmpty = false := by
    rcases hnc : natDecChars n with _ | ⟨c, cs⟩
    · exact absurd hnc (natDecChars_ne_nil h)
    · rfl
  unfold decOfChars
  rw [h1, natDecChars_all_digits]
  simp [decDigitsVal_natDecChars]

theorem pyIntChars_natDecChars {n : Nat} (h : n ≠ 0) :
    pyIntChars (natDecChars n) = some (n : Int) := by
  rcases hc : natDecChars n with _ | ⟨c, cs⟩
  · exact absurd hc (natDecChars_ne_nil h)
  · have hcmem : c ∈ natDecChars n := by rw [hc]; exact List.mem_cons_self c cs
    unfold natDecChars at hcmem
    rw [List.mem_map] at hcmem
    obtain ⟨d, hd, hcd⟩ := hcmem
    have hd10 : d < 10 := Nat.digits_lt_base (by norm_num) (List.mem_reverse.mp hd)
    simp only [pyIntChars]
    rw [if_neg (hcd ▸ char_digit_ne_minus hd10),
        if_neg (hcd ▸ char_digit_ne_plus hd10)]
    rw [← hc, decOfChars_natDecChars h]
    rfl

theorem intToDec_pos {n : Int} (h : 0 < n) :
    intToDec n = String.mk (natDecChars n.natAbs) := by
  unfold intToDec
  rw [if_neg (by omega), if_neg (by omega)]

theorem pyInt_intToDec {n : Int} (h : 0 < n) : pyInt (intToDec n) = some n := by
  rw [intToDec_pos h]
  show pyIntChars (natDecChars n.natAbs) = some n
  rw [pyIntChars_natDecChars (by omega)]
  congr 1
  exact Int.natAbs_of_nonneg h.le

theorem intToDec_pos_ne_empty {n : Int} (h : 0 < n) : intToDec n ≠ "" := by
  rw [intToDec_pos h]
  intro heq
  have hdata := congrArg String.data heq
  simp only [String.data] at hdata
  exact natDecChars_ne_nil (by omega) hdata

/-! ## Claim C2: `_parse_options` and the form-namespace filter -/

/-- C2 (code_bug): parsing the `options` parameter of an `optionsSet`
request whose only form child is a *node-config* submit form does not
fail with `BadRequest("Missing options form")` as the claim requires:
`_findForm` ignores the requested form namespace, so the node-config
form is accepted and its values become the subscription options. -/
theorem c2_options_accepts_nodeConfig_form :
    parseParam Param.options c2Elem {} =
      Except.ok { options := some [("pubsub#persist_items", "1")] }
    ∧ parseParam Param.options c2Elem {} ≠
        Except.error (ParseErr.badRequest none (some "Missing options form")) := by
  constructor
  · rfl
  · decide

/-! ## Claim C3: node-required enforcement -/

/-- C3: when the recognised verb is one of `publish`, `items`,
`retract`, `purge`, `delete` and its verb element has no `node`
attribute, request decoding fails with `BadRequest('nodeid-required')`,
so the dispatcher never reaches a backend handler. -/
theorem c3_node_required (iq : IQ) (v : Verb) (c : VerbElem)
    (hfind : findVerb iq.stanzaType iq.pubsubChildren = some (v, c))
    (hv : v = Verb.publish ∨ v = Verb.items ∨ v = Verb.retract ∨
          v = Verb.purge ∨ v = Verb.delete)
    (hnode : getAttr c.attrs "node" = none) :
    onPubSubRequest iq =
      Except.error (ParseErr.badRequest (some "nodeid-required") none) := by
  unfold onPubSubRequest parseElement
  rw [hfind]
  rcases hv with rfl | rfl | rfl | rfl | rfl <;>
    simp [parameters, parseParams, parseParam, hnode]

/-- Witness: a concrete `publish` IQ without a node attribute. -/
theorem c3_node_required_witness :
    onPubSubRequest c3Iq =
      Except.error (ParseErr.badRequest (some "nodeid-required") none) :=
  c3_node_required c3Iq Verb.publish c3Child (by decide) (Or.inl rfl) rfl

/-! ## Claim C4: unknown-verb rejection -/

theorem findVerb_eq_none (t : String) (cs : List VerbElem)
    (h : ∀ c ∈ cs, lookupVerb (t, c.uri, c.name) = none) :
    findVerb t cs = none := by
  induction cs with
  | nil => rfl
  | cons c rest ih =>
    unfold findVerb
    rw [h c (List.mem_cons_self c rest)]
    exact ih (fun x hx => h x (List.mem_cons_of_mem c hx))

/-- C4: when no child of `<pubsub>` forms a triple present in the verb
table, `parseElement` raises `NotImplementedError`, which the IQ
handling layer renders as a `feature-not-implemented` reply; no backend
handler is dispatched. -/
theorem c4_unknown_verb_not_implemented (iq : IQ)
    (h : ∀ c ∈ iq.pubsubChildren,
      lookupVerb (iq.stanzaType, c.uri, c.name) = none) :
    onPubSubRequest iq = Except.error ParseErr.notImplemented
    ∧ dispatcherErrorCondition ParseErr.notImplemented =
        "feature-not-implemented" := by
  refine ⟨?_, rfl⟩
  unfold onPubSubRequest parseElement
  rw [findVerb_eq_none _ _ h]

/-- Witness: an IQ whose only `pubsub` child is an unknown element. -/
theorem c4_unknown_verb_witness :
    onPubSubRequest c4Iq = Except.error ParseErr.notImplemented
    ∧ dispatcherErrorCondition ParseErr.notImplemented =
        "feature-not-implemented" :=
  c4_unknown_verb_not_implemented c4Iq
    (by
      intro c hc
      simp only [c4Iq, List.mem_singleton] at hc
      subst hc
      decide)

/-! ## Claim C5: `max_items` parsing -/

/-- C5 (counterexample): `max_items="-5"` is accepted and parses to the
integer `-5`, which is not positive — refuting the claim that every
successfully parsed `maxItems` value is a positive integer.  `int()`
only raises `ValueError` on non-numeric input; the source never checks
the sign. -/
theorem c5_counterexample_negative_accepted :
    parseParam Param.maxItems c5CexElem {} =
      Except.ok { maxItems := some (-5) }
    ∧ ¬ (0 < (-5 : Int)) := by
  constructor
  · rfl
  · decide

/-- C5 (amended): `max_items` is parsed with Python `int()`: a
non-numeric value such as `"abc"` fails with `BadRequest`, `"10"`
parses to the integer 10, and every successfully parsed value is
whatever (possibly non-positive) integer `int()` returns. -/
theorem c5_maxItems_parses_integers :
    (∀ (e : VerbElem) (r : PubSubRequest),
       getAttr e.attrs "max_items" = some "abc" →
       parseParam Param.maxItems e r =
         Except.error (ParseErr.badRequest none
           (some "Field max_items requires a positive integer value")))
    ∧ (∀ (e : VerbElem) (r : PubSubRequest),
       getAttr e.attrs "max_items" = some "10" →
       parseParam Param.maxItems e r = Except.ok { r with maxItems := some 10 })
    ∧ (∀ (e : VerbElem) (r : PubSubRequest) (v : String) (n : Int),
       getAttr e.attrs "max_items" = some v → pyInt v = some n →
       parseParam Param.maxItems e r =
         Except.ok { r with maxItems := some n }) := by
  refine ⟨?_, ?_, ?_⟩
  · intro e r h
    simp only [parseParam, h]
    rw [if_neg (by decide)]
    have hp : pyInt "abc" = none := by decide
    rw [hp]
  · intro e r h
    simp only [parseParam, h]
    rw [if_neg (by decide)]
    have hp : pyInt "10" = some 10 := by decide
    rw [hp]
  · intro e r v n h hp
    simp only [parseParam, h]
    have hv : v ≠ "" := by
      intro hveq
      rw [hveq] at hp
      have : pyInt "" = none := by decide
      rw [this] at hp
      exact Option.noConfusion hp
    rw [if_neg hv, hp]

/-- Witness for the amended C5 at `max_items="10"`. -/
theorem c5_maxItems_witness :
    parseParam Param.maxItems c5TenElem {} = Except.ok { maxItems := some 10 } :=
  c5_maxItems_parses_integers.2.1 c5TenElem {} (by decide)

/-! ## Claim C6: collection SHIM headers on publish notifications -/

theorem collectionHeaders_eq (node : String) (subs : List Subscription) :
    collectionHeaders node subs =
      (subs.filter (fun s => s.nodeIdentifier != some node)).map
        (fun s => ("Collection", s.nodeIdentifier)) := by
  induction subs with
  | nil => rfl
  | cons s t ih =>
    simp only [collectionHeaders] at ih ⊢
    rw [List.filterMap_cons, List.filter_cons]
    by_cases h : s.nodeIdentifier = some node
    · simp [h, ih]
    · simp [h, ih]

theorem collectionHeaders_empty_iff (node : String) (subs : List Subscription) :
    (collectionHeaders node subs).isEmpty = true ↔
      ∀ s ∈ subs, s.nodeIdentifier = some node := by
  rw [List.isEmpty_iff, collectionHeaders_eq, List.map_eq_nil_iff,
    List.filter_eq_nil_iff]
  constructor
  · intro hall s hs
    have := hall s hs
    simpa using this
  · intro hall s hs
    simp [hall s hs]

/-- C6: the message `notifyPublish` builds for the `i`-th
`(subscriber, subscriptions, items)` triple carries exactly one
`Collection` SHIM header per subscription in the triple whose node
differs from the event's node, with the subscription's node as value
and in subscription-list order; and it carries no `<headers/>` element
at all exactly when no subscription's node differs. -/
theorem c6_notifyPublish_headers (service node : String)
    (notifs : List (String × List Subscription × List SimpleElem))
    (i : Nat) (t : String × List Subscription × List SimpleElem) (m : Message)
    (ht : notifs[i]? = some t)
    (hm : (notifyPublish service node notifs)[i]? = some m) :
    m.headers.getD [] =
      (t.2.1.filter (fun s => s.nodeIdentifier != some node)).map
        (fun s => ("Collection", s.nodeIdentifier))
    ∧ (m.headers = none ↔ ∀ s ∈ t.2.1, s.nodeIdentifier = some node) := by
  unfold notifyPublish at hm
  rw [List.getElem?_map, ht, Option.map_some'] at hm
  injection hm with hm
  subst hm
  simp only [createNotification]
  constructor
  · cases hE : (collectionHeaders node t.2.1).isEmpty with
    | true =>
        simp only [hE, if_true, Option.getD_none]
        rw [← collectionHeaders_eq]
        exact (List.isEmpty_iff.mp hE).symm
    | false =>
        simp only [hE, Bool.false_eq_true, if_false, Option.getD_some]
        exact collectionHeaders_eq node t.2.1
  · cases hE : (collectionHeaders node t.2.1).isEmpty with
    | true =>
        simp only [hE, if_true]
        simp only [true_iff]
        exact (collectionHeaders_empty_iff node t.2.1).mp hE
    | false =>
        simp only [hE, Bool.false_eq_true, if_false]
        constructor
        · intro hcon
          exact Option.noConfusion hcon
        · intro hall
          rw [(collectionHeaders_empty_iff node t.2.1).mpr hall] at hE
          exact Bool.noConfusion hE

/-- Witness: one subscriber subscribed to collection node `all-news`
receiving a publish on node `news` gets exactly the single header
`Collection: all-news`. -/
theorem c6_notifyPublish_witness :
    c6Msg.headers.getD [] =
      (c6Triple.2.1.filter (fun s => s.nodeIdentifier != some "news")).map
        (fun s => ("Collection", s.nodeIdentifier))
    ∧ (c6Msg.headers = none ↔
        ∀ s ∈ c6Triple.2.1, s.nodeIdentifier = some "news") :=
  c6_notifyPublish_headers "pubsub.example.org" "news" c6Notifs 0 c6Triple c6Msg
    rfl (by decide)

/-! ## Claim C7: create response payload -/

/-- C7: the `create` response carries the
`<pubsub><create node=assigned/></pubsub>` payload exactly when the
requested node identifier is absent (where the codebase treats `None`
and the empty string alike as "no node requested") or differs from the
backend-assigned identifier; otherwise no payload is returned. -/
theorem c7_create_response (requestNode : Option String) (result : String) :
    onCreateToResponse requestNode result = createResponseSpec requestNode result := by
  unfold onCreateToResponse createResponseSpec
  rcases requestNode with _ | s
  · simp
  · by_cases hs : s = "" <;> by_cases hr : s = result <;>
      simp [hs, hr]

/-! ## Claim C8: subscribe response post-processing -/

/-- C8: the client's subscribe post-processor raises
`SubscriptionPending` on `subscription="pending"`,
`SubscriptionUnconfigured` on `"unconfigured"`, and succeeds with no
value on every other attribute value. -/
theorem c8_subscribe_response_states :
    subscribeCb "pending" = Except.error ClientError.subscriptionPending
    ∧ subscribeCb "unconfigured" =
        Except.error ClientError.subscriptionUnconfigured
    ∧ ∀ s : String, s ≠ "pending" → s ≠ "unconfigured" →
        subscribeCb s = Except.ok none := by
  refine ⟨rfl, by decide, ?_⟩
  intro s h1 h2
  unfold subscribeCb
  rw [if_neg h1, if_neg h2]

/-- Witness for C8 at the attribute value `"subscribed"`. -/
theorem c8_subscribe_witness : subscribeCb "subscribed" = Except.ok none :=
  c8_subscribe_response_states.2.2 "subscribed" (by decide) (by decide)

/-! ## Claim C9: service-level disco info -/

/-- C9 (code_bug): with the default configuration and an empty node
identifier, the advertised identity is built from the `discoIdentity`
mapping's KEY strings — `category`/`type`/`name` — because line 826
unpacks the dict; the identity the claim (and the class docstring and
`__init__` values) call for never appears.  The disco-items feature and
the `NS_PUBSUB#<feature>` entries are produced as the claim states. -/
theorem c9_disco_identity_uses_keys :
    getDiscoInfoEmptyNode defaultDiscoIdentity ["publish"] =
      [InfoEntry.identity "category" "type" "name",
       InfoEntry.feature NS_DISCO_ITEMS,
       InfoEntry.feature (NS_PUBSUB ++ "#publish")]
    ∧ InfoEntry.identity "pubsub" "generic" "Generic Publish-Subscribe Service"
        ∉ getDiscoInfoEmptyNode defaultDiscoIdentity ["publish"] := by
  constructor
  · rfl
  · decide

/-! ## Claim C10: rendering a required node identifier -/

/-- C10: for the verbs whose parameter list includes the required
`node` parameter, `send` with an absent or empty node identifier raises
the plain `Exception("Node identifier is required")` — the
`SendErr.exception` constructor, not a stanza-error carrier — before
`iq.send()` is reached, so no IQ is dispatched on the stream. -/
theorem c10_send_node_required (r : PubSubRequest) (v : Verb)
    (hverb : r.verb = some v)
    (hv : v = Verb.publish ∨ v = Verb.items ∨ v = Verb.retract ∨
          v = Verb.purge ∨ v = Verb.delete)
    (hnode : r.nodeIdentifier = none ∨ r.nodeIdentifier = some "") :
    sendReq r = Except.error (SendErr.exception "Node identifier is required") := by
  unfold sendReq
  rw [hverb]
  rcases hv with rfl | rfl | rfl | rfl | rfl <;>
    rcases hnode with h | h <;>
      simp [verbRequestMap, parameters, renderParams, renderParam, h]

/-- Witness: a publish request with no node identifier. -/
theorem c10_send_witness :
    sendReq c10Req = Except.error (SendErr.exception "Node identifier is required") :=
  c10_send_node_required c10Req Verb.publish rfl (Or.inl rfl) (Or.inl rfl)

/-! ## Claim C1: round trip of render and parse -/

theorem lookupVerb_verbRequestMap (v : Verb) :
    lookupVerb (verbRequestMap v) = some v := by
  cases v <;> decide

theorem itemsOfChildren_map_elem (xs : List SimpleElem) :
    xs.all (fun e => e.uri == NS_PUBSUB && e.name == "item") = true →
    itemsOfChildren (xs.map VChild.elem) = xs := by
  induction xs with
  | nil => intro _; rfl
  | cons x t ih =>
    intro hxs
    rw [List.all_cons, Bool.and_eq_true] at hxs
    obtain ⟨hx, ht⟩ := hxs
    simp only [List.map_cons, itemsOfChildren]
    rw [if_pos hx, ih ht]

theorem itemsOfChildren_elem_cons (x : SimpleElem) (t : List SimpleElem)
    (hx : (x.uri == NS_PUBSUB && x.name == "item") = true)
    (ht : t.all (fun e => e.uri == NS_PUBSUB && e.name == "item") = true) :
    itemsOfChildren (VChild.elem x :: t.map VChild.elem) = x :: t := by
  have h := itemsOfChildren_map_elem (x :: t)
    (by rw [List.all_cons, Bool.and_eq_true]; exact ⟨hx, ht⟩)
  simpa using h

theorem collectIds_map_rendered (ids : List String) :
    collectIds (ids.map (fun i =>
      VChild.elem { uri := NS_PUBSUB, name := "item", attrs := [("id", i)] })) =
      Except.ok ids := by
  induction ids with
  | nil => rfl
  | cons i t ih =>
    simp [collectIds, getAttr, ih]

theorem collectIds_elem_cons (i : String) (t : List String) :
    collectIds (VChild.elem { uri := NS_PUBSUB, name := "item", attrs := [("id", i)] }
        :: t.map (fun j =>
            VChild.elem { uri := NS_PUBSUB, name := "item", attrs := [("id", j)] })) =
      Except.ok (i :: t) := by
  have h := collectIds_map_rendered (i :: t)
  simpa using h

/-- C1 (counterexample): the record fields of the `default` verb are
valid, but `send` raises `AttributeError` looking up the nonexistent
`_render_default` method, so no stanza is ever produced and parse of
render cannot return the record.  The same holds for `configureSet`
(`_render_configure`) and `optionsSet` (`_render_options`). -/
theorem c1_counterexample_unrenderable_default :
    validRequest Verb.default c1CexReq
    ∧ sendReq c1CexReq = Except.error (SendErr.attributeError "_render_default")
    ∧ roundTrip c1CexReq = none := by
  refine ⟨by decide, by rfl, by rfl⟩

/-- C1 (amended): for every verb except `default`, `configureSet` and
`optionsSet` — the three whose parameter lists name a renderer the
source does not define — parsing the stanza produced by rendering a
valid request record returns the record unchanged. -/
theorem c1_amended_roundTrip (v : Verb) (r : PubSubRequest)
    (hd : v ≠ Verb.default) (hcs : v ≠ Verb.configureSet)
    (hos : v ≠ Verb.optionsSet) (hvalid : validRequest v r) :
    roundTrip r = some (Except.ok r) := by
  obtain ⟨rv, rs, rr, rni, rnt, rit, rii, rmi, rsub, ropt, raff, rsubs⟩ := r
  cases v with
  | default => exact absurd rfl hd
  | configureSet => exact absurd rfl hcs
  | optionsSet => exact absurd rfl hos
  | publish =>
      obtain ⟨hverb, haff, hsubs, ⟨hn1, hn2⟩, hit1, hit2, hnt, hii, hmi, hsub, hopt⟩ :=
        hvalid
      subst hverb haff hsubs hnt hii hmi hsub hopt
      rcases rni with _ | s
      · exact absurd rfl hn1
      rcases rit with _ | l
      · exact absurd rfl hit1
      have hs : s ≠ "" := fun h => hn2 (by rw [h])
      rw [Option.getD_some] at hit2
      have hlu : lookupVerb ("set", NS_PUBSUB, "publish") = some Verb.publish := by
        decide
      rcases l with _ | ⟨x, xs⟩
      · simp [roundTrip, sendReq, verbRequestMap, parameters, renderParams,
          renderParam, setAttr, addChildren, sentToIQ, parseElement, stanzaBase,
          findVerb, parseParams, parseParam, getAttr, itemsOfChildren, hs, hlu]
      · rw [List.all_cons, Bool.and_eq_true] at hit2
        obtain ⟨hx, ht⟩ := hit2
        have hio := itemsOfChildren_elem_cons x xs hx ht
        simp [roundTrip, sendReq, verbRequestMap, parameters, renderParams,
          renderParam, setAttr, addChildren, sentToIQ, parseElement, stanzaBase,
          findVerb, parseParams, parseParam, getAttr, hs, hlu, hio]
  | subscribe =>
      obtain ⟨hverb, haff, hsubs, hn1, hsub1, hnt, hit, hii, hmi, hopt⟩ := hvalid
      subst hverb haff hsubs hnt hit hii hmi hopt
      rcases rni with _ | s
      · exact absurd rfl hn1
      rcases rsub with _ | j
      · exact absurd rfl hsub1
      have hlu : lookupVerb ("set", NS_PUBSUB, "subscribe") = some Verb.subscribe := by
        decide
      by_cases hs : s = "" <;>
        simp [roundTrip, sendReq, verbRequestMap, parameters, renderParams,
          renderParam, setAttr, addChildren, sentToIQ, parseElement, stanzaBase,
          findVerb, parseParams, parseParam, getAttr, hs, hlu]
  | unsubscribe =>
      obtain ⟨hverb, haff, hsubs, hn1, hsub1, hnt, hit, hii, hmi, hopt⟩ := hvalid
      subst hverb haff hsubs hnt hit hii hmi hopt
      rcases rni with _ | s
      · exact absurd rfl hn1
      rcases rsub with _ | j
      · exact absurd rfl hsub1
      have hlu : lookupVerb ("set", NS_PUBSUB, "unsubscribe") =
          some Verb.unsubscribe := by decide
      by_cases hs : s = "" <;>
        simp [roundTrip, sendReq, verbRequestMap, parameters, renderParams,
          renderParam, setAttr, addChildren, sentToIQ, parseElement, stanzaBase,
          findVerb, parseParams, parseParam, getAttr, hs, hlu]
  | optionsGet =>
      obtain ⟨hverb, haff, hsubs, hn1, hsub1, hnt, hit, hii, hmi, hopt⟩ := hvalid
      subst hverb haff hsubs hnt hit hii hmi hopt
      rcases rni with _ | s
      · exact absurd rfl hn1
      rcases rsub with _ | j
      · exact absurd rfl hsub1
      have hlu : lookupVerb ("get", NS_PUBSUB, "options") = some Verb.optionsGet := by
        decide
      by_cases hs : s = "" <;>
        simp [roundTrip, sendReq, verbRequestMap, parameters, renderParams,
          renderParam, setAttr, addChildren, sentToIQ, parseElement, stanzaBase,
          findVerb, parseParams, parseParam, getAttr, hs, hlu]
  | subscriptions =>
      obtain ⟨hverb, haff, hsubs, hni, hnt, hit, hii, hmi, hsub, hopt⟩ := hvalid
      subst hverb haff hsubs hni hnt hit hii hmi hsub hopt
      have hlu : lookupVerb ("get", NS_PUBSUB, "subscriptions") =
          some Verb.subscriptions := by decide
      simp [roundTrip, sendReq, verbRequestMap, parameters, renderParams,
        renderParam, sentToIQ, parseElement, stanzaBase, findVerb, parseParams,
        parseParam, getAttr, hlu]
  | affiliations =>
      obtain ⟨hverb, haff, hsubs, hni, hnt, hit, hii, hmi, hsub, hopt⟩ := hvalid
      subst hverb haff hsubs hni hnt hit hii hmi hsub hopt
      have hlu : lookupVerb ("get", NS_PUBSUB, "affiliations") =
          some Verb.affiliations := by decide
      simp [roundTrip, sendReq, verbRequestMap, parameters, renderParams,
        renderParam, sentToIQ, parseElement, stanzaBase, findVerb, parseParams,
        parseParam, getAttr, hlu]
  | create =>
      obtain ⟨hverb, haff, hsubs, hn2, hnt, hit, hii, hmi, hsub, hopt⟩ := hvalid
      subst hverb haff hsubs hnt hit hii hmi hsub hopt
      have hlu : lookupVerb ("set", NS_PUBSUB, "create") = some Verb.create := by
        decide
      rcases rni with _ | s
      · simp [roundTrip, sendReq, verbRequestMap, parameters, renderParams,
          renderParam, setAttr, sentToIQ, parseElement, stanzaBase, findVerb,
          parseParams, parseParam, getAttr, hlu]
      · have hs : s ≠ "" := fun h => hn2 (by rw [h])
        simp [roundTrip, sendReq, verbRequestMap, parameters, renderParams,
          renderParam, setAttr, sentToIQ, parseElement, stanzaBase, findVerb,
          parseParams, parseParam, getAttr, hs, hlu]
  | configureGet =>
      obtain ⟨hverb, haff, hsubs, hn1, hnt, hit, hii, hmi, hsub, hopt⟩ := hvalid
      subst hverb haff hsubs hnt hit hii hmi hsub hopt
      rcases rni with _ | s
      · exact absurd rfl hn1
      have hlu : lookupVerb ("get", NS_PUBSUB_OWNER, "configure") =
          some Verb.configureGet := by decide
      by_cases hs : s = "" <;>
        simp [roundTrip, sendReq, verbRequestMap, parameters, renderParams,
          renderParam, setAttr, sentToIQ, parseElement, stanzaBase, findVerb,
          parseParams, parseParam, getAttr, hs, hlu]
  | items =>
      obtain ⟨hverb, haff, hsubs, ⟨hn1, hn2⟩, hmi, hii1, hnt, hit, hsub, hopt⟩ :=
        hvalid
      subst hverb haff hsubs hnt hit hsub hopt
      rcases rni with _ | s
      · exact absurd rfl hn1
      rcases rii with _ | ids
      · exact absurd rfl hii1
      have hs : s ≠ "" := fun h => hn2 (by rw [h])
      have hlu : lookupVerb ("get", NS_PUBSUB, "items") = some Verb.items := by
        decide
      rcases rmi with _ | n
      · rcases ids with _ | ⟨i, is⟩
        · simp [roundTrip, sendReq, verbRequestMap, parameters, renderParams,
            renderParam, setAttr, addChildren, sentToIQ, parseElement, stanzaBase,
            findVerb, parseParams, parseParam, getAttr, collectIds, hs, hlu]
        · have hci := collectIds_elem_cons i is
          simp [roundTrip, sendReq, verbRequestMap, parameters, renderParams,
            renderParam, setAttr, addChildren, sentToIQ, parseElement, stanzaBase,
            findVerb, parseParams, parseParam, getAttr, hs, hlu, hci]
      · rw [Option.getD_some] at hmi
        have hn0 : ¬ (n = 0) := by omega
        have hne : ¬ (intToDec n = "") := intToDec_pos_ne_empty hmi
        have hpy : pyInt (intToDec n) = some n := pyInt_intToDec hmi
        rcases ids with _ | ⟨i, is⟩
        · simp [roundTrip, sendReq, verbRequestMap, parameters, renderParams,
            renderParam, setAttr, addChildren, sentToIQ, parseElement, stanzaBase,
            findVerb, parseParams, parseParam, getAttr, collectIds, hs, hlu, hn0,
            hne, hpy]
        · have hci := collectIds_elem_cons i is
          simp [roundTrip, sendReq, verbRequestMap, parameters, renderParams,
            renderParam, setAttr, addChildren, sentToIQ, parseElement, stanzaBase,
            findVerb, parseParams, parseParam, getAttr, hs, hlu, hn0, hne, hpy,
            hci]
  | retract =>
      obtain ⟨hverb, haff, hsubs, ⟨hn1, hn2⟩, hii1, hnt, hit, hmi, hsub, hopt⟩ :=
        hvalid
      subst hverb haff hsubs hnt hit hmi hsub hopt
      rcases rni with _ | s
      · exact absurd rfl hn1
      rcases rii with _ | ids
      · exact absurd rfl hii1
      have hs : s ≠ "" := fun h => hn2 (by rw [h])
      have hlu : lookupVerb ("set", NS_PUBSUB, "retract") = some Verb.retract := by
        decide
      rcases ids with _ | ⟨i, is⟩
      · simp [roundTrip, sendReq, verbRequestMap, parameters, renderParams,
          renderParam, setAttr, addChildren, sentToIQ, parseElement, stanzaBase,
          findVerb, parseParams, parseParam, getAttr, collectIds, hs, hlu]
      · have hci := collectIds_elem_cons i is
        simp [roundTrip, sendReq, verbRequestMap, parameters, renderParams,
          renderParam, setAttr, addChildren, sentToIQ, parseElement, stanzaBase,
          findVerb, parseParams, parseParam, getAttr, hs, hlu, hci]
  | purge =>
      obtain ⟨hverb, haff, hsubs, ⟨hn1, hn2⟩, hnt, hit, hii, hmi, hsub, hopt⟩ :=
        hvalid
      subst hverb haff hsubs hnt hit hii hmi hsub hopt
      rcases rni with _ | s
      · exact absurd rfl hn1
      have hs : s ≠ "" := fun h => hn2 (by rw [h])
      have hlu : lookupVerb ("set", NS_PUBSUB_OWNER, "purge") = some Verb.purge := by
        decide
      simp [roundTrip, sendReq, verbRequestMap, parameters, renderParams,
        renderParam, setAttr, sentToIQ, parseElement, stanzaBase, findVerb,
        parseParams, parseParam, getAttr, hs, hlu]
  | delete =>
      obtain ⟨hverb, haff, hsubs, ⟨hn1, hn2⟩, hnt, hit, hii, hmi, hsub, hopt⟩ :=
        hvalid
      subst hverb haff hsubs hnt hit hii hmi hsub hopt
      rcases rni with _ | s
      · exact absurd rfl hn1
      have hs : s ≠ "" := fun h => hn2 (by rw [h])
      have hlu : lookupVerb ("set", NS_PUBSUB_OWNER, "delete") =
          some Verb.delete := by decide
      simp [roundTrip, sendReq, verbRequestMap, parameters, renderParams,
        renderParam, setAttr, sentToIQ, parseElement, stanzaBase, findVerb,
        parseParams, parseParam, getAttr, hs, hlu]
  | affiliationsGet =>
      obtain ⟨hverb, haff, hsubs, hni, hnt, hit, hii, hmi, hsub, hopt⟩ := hvalid
      subst hverb haff hsubs hni hnt hit hii hmi hsub hopt
      have hlu : lookupVerb ("get", NS_PUBSUB_OWNER, "affiliations") =
          some Verb.affiliationsGet := by decide
      simp [roundTrip, sendReq, verbRequestMap, parameters, renderParams,
        renderParam, sentToIQ, parseElement, stanzaBase, findVerb, parseParams,
        parseParam, getAttr, hlu]
  | affiliationsSet =>
      obtain ⟨hverb, haff, hsubs, hni, hnt, hit, hii, hmi, hsub, hopt⟩ := hvalid
      subst hverb haff hsubs hni hnt hit hii hmi hsub hopt
      have hlu : lookupVerb ("set", NS_PUBSUB_OWNER, "affiliations") =
          some Verb.affiliationsSet := by decide
      simp [roundTrip, sendReq, verbRequestMap, parameters, renderParams,
        renderParam, sentToIQ, parseElement, stanzaBase, findVerb, parseParams,
        parseParam, getAttr, hlu]
  | subscriptionsGet =>
      obtain ⟨hverb, haff, hsubs, hni, hnt, hit, hii, hmi, hsub, hopt⟩ := hvalid
      subst hverb haff hsubs hni hnt hit hii hmi hsub hopt
      have hlu : lookupVerb ("get", NS_PUBSUB_OWNER, "subscriptions") =
          some Verb.subscriptionsGet := by decide
      simp [roundTrip, sendReq, verbRequestMap, parameters, renderParams,
        renderParam, sentToIQ, parseElement, stanzaBase, findVerb, parseParams,
        parseParam, getAttr, hlu]
  | subscriptionsSet =>
      obtain ⟨hverb, haff, hsubs, hni, hnt, hit, hii, hmi, hsub, hopt⟩ := hvalid
      subst hverb haff hsubs hni hnt hit hii hmi hsub hopt
      have hlu : lookupVerb ("set", NS_PUBSUB_OWNER, "subscriptions") =
          some Verb.subscriptionsSet := by decide
      simp [roundTrip, sendReq, verbRequestMap, parameters, renderParams,
        renderParam, sentToIQ, parseElement, stanzaBase, findVerb, parseParams,
        parseParam, getAttr, hlu]

/-- Witness: a concrete valid publish request round-trips. -/
theorem c1_roundTrip_witness :
    validRequest Verb.publish c1WitReq
    ∧ roundTrip c1WitReq = some (Except.ok c1WitReq) :=
  ⟨by decide,
   c1_amended_roundTrip Verb.publish c1WitReq (by decide) (by decide) (by decide)
     (by decide)⟩
